import Mathlib

set_option autoImplicit false

/-!
Shallow embedding of `src/streamlit_app.py`: a Streamlit stock dashboard
built around a small fetch → normalize → enrich → metrics pipeline.

The pandas/yfinance data model is embedded as follows: a DataFrame is an
index plus an ordered list of named columns; a cell is a finite number
(an exact rational), a missing value (NaN), or a zoned timestamp; machine
floats are modelled by exact rationals, with NaN propagation made explicit.
Fallible operations (missing columns, attribute errors, subscripting `None`)
return `Except String`.  The external market-data provider is a parameter
(a function from download requests to results), and the external indicator
library is modelled by executable definitions of its documented formulas.
-/

deriving instance DecidableEq for Except

namespace StockApp

/-- Time zones occurring in the program: the assumed source zone UTC and
the fixed display zone US/Eastern (`process_data`, lines 46–52). -/
inductive Zone where
  | utc
  | usEastern
deriving DecidableEq

/-- A zoned timestamp as pandas stores it: the absolute instant (seconds
since the epoch) plus the zone tag used for display.  `tz_convert` changes
only the tag, and `tz_localize('UTC')` attaches the UTC tag to a naive
value, whose stored value is the instant because UTC has offset zero. -/
structure Timestamp where
  instant : Int
  tz : Option Zone
deriving DecidableEq

/-- A cell of a pandas column: a finite numeric value, a missing value
(NaN), or a zoned timestamp (as in the materialized `Datetime` column).
Numbers are exact rationals. -/
inductive Cell where
  | num (q : Rat)
  | nan
  | time (t : Timestamp)
deriving DecidableEq

/-- A DataFrame index: either a named `DatetimeIndex` (one shared zone tag,
`none` when naive, and one instant per row) as `yf.download` returns it, or
the plain `RangeIndex` left behind by `reset_index`.  A `RangeIndex` has no
`tzinfo` attribute: reading it raises `AttributeError`. -/
inductive Idx where
  | dt (name : String) (tz : Option Zone) (vals : List Int)
  | range (n : Nat)
deriving DecidableEq

/-- A pandas DataFrame: an index plus named columns in display order. -/
structure Frame where
  idx : Idx
  cols : List (String × List Cell)
deriving DecidableEq

/-- Number of index entries (rows) of an index. -/
def Idx.length : Idx → Nat
  | .dt _ _ vals => vals.length
  | .range n => n

/-- Number of rows of a frame. -/
def Frame.nRows (f : Frame) : Nat := f.idx.length

/-- The pandas `df.empty` test: true when any axis has length zero. -/
def Frame.empty (f : Frame) : Bool := f.nRows == 0 || f.cols.isEmpty

/-- Column selection `df[name]`; raises `KeyError` when absent (the first
column of that name is selected). -/
def Frame.colGet (f : Frame) (name : String) : Except String (List Cell) :=
  match f.cols.find? (fun c => c.1 == name) with
  | some c => .ok c.2
  | none => .error ("KeyError: " ++ name)

/-- Column assignment `df[name] = xs`: overwrite the column when the name
exists, otherwise append the new column at the end, as pandas does. -/
def Frame.setCol (f : Frame) (name : String) (xs : List Cell) : Frame :=
  if f.cols.any (fun c => c.1 == name) then
    { f with cols := f.cols.map (fun c => if c.1 == name then (c.1, xs) else c) }
  else
    { f with cols := f.cols ++ [(name, xs)] }

/-- Sub-frame selection `df[[n1, ..., nk]]`; `KeyError` when any name is
missing. -/
def Frame.subFrame (f : Frame) (names : List String) : Except String Frame := do
  let cols ← names.mapM (fun n => do
    let xs ← f.colGet n
    pure (n, xs))
  pure { idx := f.idx, cols := cols }

/-- `process_data` (lines 46–52): when the index carries no time-zone
information attach UTC, convert the index to US/Eastern, materialize the
index as the first column (`reset_index(inplace=True)`), and rename a
column called `Date` to `Datetime`.  The stored instants are unchanged by
both zone operations (UTC has offset zero; `tz_convert` changes only the
tag).  When the index is already a `RangeIndex` — as it is after one
application — the attribute read `data.index.tzinfo` raises
`AttributeError`. -/
def process_data (data : Frame) : Except String Frame :=
  match data.idx with
  | .range _ => .error "AttributeError: RangeIndex object has no attribute tzinfo"
  | .dt name _ vals =>
    .ok { idx := .range vals.length,
          cols := ((name, vals.map (fun v => Cell.time ⟨v, some Zone.usEastern⟩)) :: data.cols).map
            (fun c => (if c.1 = "Date" then "Datetime" else c.1, c.2)) }

/-- The finite numeric values of a column, in order (pandas reductions
skip NaN). -/
def numsOf (xs : List Cell) : List Rat :=
  xs.filterMap (fun c => match c with | .num q => some q | _ => none)

/-- Maximum of a nonempty list of rationals (0 for the empty list, a case
the callers exclude). -/
def listMax : List Rat → Rat
  | [] => 0
  | x :: xs => xs.foldl max x

/-- Minimum of a nonempty list of rationals (0 for the empty list, a case
the callers exclude). -/
def listMin : List Rat → Rat
  | [] => 0
  | x :: xs => xs.foldl min x

/-- The pandas `Series.max()`: maximum of the finite values, NaN when
there are none. -/
def colMax (xs : List Cell) : Cell :=
  match numsOf xs with
  | [] => .nan
  | y :: ys => .num (ys.foldl max y)

/-- The pandas `Series.min()`: minimum of the finite values, NaN when
there are none. -/
def colMin (xs : List Cell) : Cell :=
  match numsOf xs with
  | [] => .nan
  | y :: ys => .num (ys.foldl min y)

/-- The pandas `Series.sum()`: sum of the finite values (0 for an all-NaN
or empty column). -/
def colSum (xs : List Cell) : Cell := .num (numsOf xs).sum

/-- Numeric subtraction on cells; any operand that is not a finite number
gives NaN. -/
def Cell.sub : Cell → Cell → Cell
  | .num a, .num b => .num (a - b)
  | _, _ => .nan

/-- Numeric multiplication on cells; any operand that is not a finite
number gives NaN. -/
def Cell.mul : Cell → Cell → Cell
  | .num a, .num b => .num (a * b)
  | _, _ => .nan

/-- Numeric division on cells; division by zero (which floating point
turns into an infinity, never a finite value) and non-numeric operands are
modelled as NaN, meaning no finite result. -/
def Cell.div : Cell → Cell → Cell
  | .num a, .num b => if b = 0 then .nan else .num (a / b)
  | _, _ => .nan

/-- `series.iloc[0]`: first element; `IndexError` on an empty series. -/
def ilocFirst (xs : List Cell) : Except String Cell :=
  match xs.head? with
  | some c => .ok c
  | none => .error "IndexError"

/-- `series.iloc[-1]`: last element; `IndexError` on an empty series. -/
def ilocLast (xs : List Cell) : Except String Cell :=
  match xs.getLast? with
  | some c => .ok c
  | none => .error "IndexError"

/-- `calculate_metrics` (lines 55–63): last close, change from the first
close of the window, percent change, window high and low, total volume. -/
def calculate_metrics (data : Frame) :
    Except String (Cell × Cell × Cell × Cell × Cell × Cell) := do
  let closeCol ← data.colGet "Close"
  let last_close ← ilocLast closeCol
  let prev_close ← ilocFirst closeCol
  let change := last_close.sub prev_close
  let pct_change := (change.div prev_close).mul (.num 100)
  let highCol ← data.colGet "High"
  let high := colMax highCol
  let lowCol ← data.colGet "Low"
  let low := colMin lowCol
  let volCol ← data.colGet "Volume"
  let volume := colSum volCol
  return (last_close, change, pct_change, high, low, volume)

/-- The exponentially weighted recursion of pandas `ewm`:
each output is `a * x + (1 - a) * previous output`, seeded with the given
previous smoothed value. -/
def emaFrom (a : Rat) (prev : Rat) : List Rat → List Rat
  | [] => []
  | x :: xs => (a * x + (1 - a) * prev) :: emaFrom a (a * x + (1 - a) * prev) xs

/-- All smoothed values of the exponential moving average with smoothing
factor `2 / (window + 1)`, seeded at the first sample. -/
def emaVals (window : Nat) : List Rat → List Rat
  | [] => []
  | x :: xs => x :: emaFrom ((2 : Rat) / ((window : Rat) + 1)) x xs

/-- Model of the library call `ta.trend.sma_indicator` with the given
window: trailing simple moving average over the window, with the first
`window - 1` outputs undefined. -/
def sma_indicator (window : Nat) (xs : List Rat) : List Cell :=
  (List.range xs.length).map (fun i =>
    if i + 1 < window then Cell.nan
    else Cell.num (((xs.drop (i + 1 - window)).take window).sum / (window : Rat)))

/-- Model of the library call `ta.trend.ema_indicator` with the given
window: exponential moving average with factor `2 / (window + 1)`, with
the first `window - 1` outputs undefined (the minimum-periods mask of the
library). -/
def ema_indicator (window : Nat) (xs : List Rat) : List Cell :=
  (List.range xs.length).map (fun i =>
    if i + 1 < window then Cell.nan else Cell.num ((emaVals window xs).getD i 0))

/-- The one-step price differences of `close.diff(1)`, without the leading
undefined entry. -/
def diffs : List Rat → List Rat
  | [] => []
  | [_] => []
  | x :: y :: xs => (y - x) :: diffs (y :: xs)

/-- Smoothed running average with factor `1 / window` (the Wilder-style
recursion the library uses for RSI), seeded at the first sample. -/
def rma (window : Nat) : List Rat → List Rat
  | [] => []
  | x :: xs => x :: emaFrom ((1 : Rat) / (window : Rat)) x xs

/-- Model of the library call `ta.momentum.rsi` with the given window:
relative strength index over smoothed average gains and losses of the
one-step differences; the first `window` outputs are undefined (there is
no difference at row 0).  A zero average loss is modelled as RSI 100, the
limit the library produces there. -/
def rsi (window : Nat) (xs : List Rat) : List Cell :=
  (List.range xs.length).map (fun i =>
    if i < window then Cell.nan
    else
      let g := (rma window ((diffs xs).map (fun d => max d 0))).getD (i - 1) 0
      let l := (rma window ((diffs xs).map (fun d => max (-d) 0))).getD (i - 1) 0
      if l = 0 then Cell.num 100
      else Cell.num (100 - 100 / (1 + g / l)))

/-- Model of the library call `ta.trend.macd`: difference of the 12- and
26-sample exponential moving averages of the close, undefined for the
first 25 rows (the minimum-periods mask is the slow window). -/
def macd (xs : List Rat) : List Cell :=
  (List.range xs.length).map (fun i =>
    if i + 1 < 26 then Cell.nan
    else Cell.num ((emaVals 12 xs).getD i 0 - (emaVals 26 xs).getD i 0))

/-- The finite values of a column of cells, used to take the defined
suffix of the MACD line. -/
def definedVals (xs : List Cell) : List Rat :=
  xs.filterMap (fun c => match c with | Cell.num q => some q | _ => none)

/-- Model of the library call `ta.trend.macd_signal`: the 9-sample
exponential moving average of the MACD line, taken over its defined
suffix; undefined while MACD is undefined or until 9 MACD samples
exist. -/
def macd_signal (xs : List Rat) : List Cell :=
  let m := definedVals (macd xs)
  let lead := xs.length - m.length
  (List.range xs.length).map (fun i =>
    if i < lead + 8 then Cell.nan
    else Cell.num ((emaVals 9 m).getD (i - lead) 0))

/-- A column read as exact numbers; fails when any cell is not a finite
number.  The modelled indicator algebra is taken over NaN-free series,
which is what the provider supplies. -/
def asNums : List Cell → Except String (List Rat)
  | [] => .ok []
  | Cell.num q :: rest =>
    match asNums rest with
    | .ok ys => .ok (q :: ys)
    | .error e => .error e
  | _ :: _ => .error "TypeError: non-numeric value in numeric column"

/-- `add_technical_indicators` (lines 66–69): appends the SMA-20 and
EMA-20 columns, both computed from the close column. -/
def add_technical_indicators (data : Frame) : Except String Frame := do
  let closeCells ← data.colGet "Close"
  let close ← asNums closeCells
  let data1 := data.setCol "SMA_20" (sma_indicator 20 close)
  let data2 := data1.setCol "EMA_20" (ema_indicator 20 close)
  return data2

/-- `add_more_indicators` (lines 72–76): appends the RSI, MACD and MACD
signal columns, all computed from the close column. -/
def add_more_indicators (data : Frame) : Except String Frame := do
  let closeCells ← data.colGet "Close"
  let close ← asNums closeCells
  let data1 := data.setCol "RSI" (rsi 14 close)
  let data2 := data1.setCol "MACD" (macd close)
  let data3 := data2.setCol "MACD_Signal" (macd_signal close)
  return data3

/-- A request to the provider `yf.download`: either an explicit start/end
range or a named period token, always together with an interval. -/
inductive DlReq where
  | byRange (ticker : String) (start stop : Int) (interval : String)
  | byPeriod (ticker : String) (period : String) (interval : String)
deriving DecidableEq

/-- The ticker of a download request. -/
def DlReq.tickerOf : DlReq → String
  | .byRange t _ _ _ => t
  | .byPeriod t _ _ => t

/-- What a provider call does: return a frame or raise an exception. -/
inductive DlResult where
  | ok (data : Frame)
  | raises (msg : String)

/-- A message rendered while fetching: `st.warning` or `st.error`. -/
inductive Msg where
  | warning (s : String)
  | errorMsg (s : String)
deriving DecidableEq

/-- The request `fetch_stock_data` issues (lines 29–36): for period `1wk`
an explicit start/end range of the trailing 7 calendar days (7 times
86400 seconds) ending now; for period `1d` the native 1-day period; for
every other period the token itself, always with the selected interval. -/
def yf_request (ticker period interval : String) (now : Int) : DlReq :=
  if period = "1wk" then .byRange ticker (now - 7 * 86400) now interval
  else if period = "1d" then .byPeriod ticker "1d" interval
  else .byPeriod ticker period interval

/-- The warning text of line 38. -/
def noDataMsg (ticker : String) : String :=
  "No data found for " ++ ticker ++ ". It may be delisted or there is no price data available."

/-- The error text of line 42. -/
def fetchErrMsg (ticker e : String) : String :=
  "Error fetching data for " ++ ticker ++ ": " ++ e

/-- `fetch_stock_data` (lines 27–43): issue the request built by
`yf_request`; on an empty result warn and return `None`; when the
provider raises, the surrounding try/except shows the error and returns
`None`; otherwise return the data.  The function itself never raises:
its result is a plain pair of the returned value and the rendered
messages. -/
def fetch_stock_data (provider : DlReq → DlResult) (now : Int)
    (ticker period interval : String) : Option Frame × List Msg :=
  match provider (yf_request ticker period interval now) with
  | .raises e => (none, [.errorMsg (fetchErrMsg ticker e)])
  | .ok data =>
    if data.empty then (none, [.warning (noDataMsg ticker)])
    else (some data, [])

/-- `refresh_interval` (line 98). -/
def refresh_interval : Int := 20

/-- Line 101: the elapsed time between the two adjacent clock readings of
the same render pass, truncated to an integer by the Python `int()` call
(truncation equals the floor for the nonnegative gaps a monotone clock
produces). -/
def time_since_refresh (t1 t2 : Rat) : Int := ⌊t2 - t1⌋

/-- `countdown` (line 102): the number of seconds shown by the sidebar
caption of line 103. -/
def countdown (t1 t2 : Rat) : Int := refresh_interval - time_since_refresh t1 t2

/-- `stock_names` (lines 10–24): the fixed watchlist, ticker and display
name, in declaration order. -/
def stock_names : List (String × String) :=
  [("AAPL", "Apple Inc."),
   ("GOOGL", "Alphabet Inc."),
   ("MSFT", "Microsoft Corporation"),
   ("AMZN", "Amazon.com Inc."),
   ("TSLA", "Tesla Inc."),
   ("NFLX", "Netflix Inc."),
   ("NVDA", "NVIDIA Corporation"),
   ("META", "Meta Platforms, Inc."),
   ("BABA", "Alibaba Group Holding Ltd."),
   ("ADBE", "Adobe Inc."),
   ("INTC", "Intel Corporation"),
   ("RELIANCE.NS", "Reliance Industries Limited"),
   ("TCS.NS", "Tata Consultancy Services")]

/-- `stock_names[ticker]`: display-name lookup (selections always come
from the watchlist, so the missing case cannot occur for them). -/
def lookupName (t : String) : String :=
  match stock_names.find? (fun p => p.1 == t) with
  | some p => p.2
  | none => t

/-- The user selections read from the sidebar widgets (lines 84–95). -/
structure Selections where
  ticker : String
  time_period : String
  interval : String
  chart_type : String
  indicators : List String
  compare_ticker : String

/-- One visible element emitted during a render pass, in execution
order.  Sidebar and main-area elements are interleaved in the order the
script produces them. -/
inductive Item where
  | countdownNote (secs : Int)
  | warn (s : String)
  | errNote (s : String)
  | headline (name : String) (lastClose change pct : Cell)
  | summaryRow (high low volume : Cell)
  | rsiChart (vals : List Cell)
  | macdChart (vals sig : List Cell)
  | priceChart (chartType : String) (x closes : List Cell)
  | histTable (f : Frame)
  | indTable (f : Frame)
  | downloadCsv (filename : String)
  | compareChart (x1 y1 x2 y2 : List Cell)
  | watchMetric (name : String) (lastPrice change pct : Cell)
  | aboutNote
deriving DecidableEq

/-- The item rendered by a fetch message. -/
def msgItem : Msg → Item
  | .warning s => .warn s
  | .errorMsg s => .errNote s

/-- Lines 134–144: the indicator toggle loop.  SMA and EMA toggles only
read columns for overlay traces of the later price chart (they emit no
item of their own); RSI and MACD render sub-charts immediately.  A
missing column raises; the pair returned is the items rendered by the
loop and the exception, when one was raised. -/
def indicatorLoop (data : Frame) : List String → List Item × Option String
  | [] => ([], none)
  | ind :: rest =>
    let step : List Item × Option String :=
      if ind = "SMA 20" then
        match data.colGet "Datetime", data.colGet "SMA_20" with
        | .ok _, .ok _ => ([], none)
        | .error e, _ => ([], some e)
        | _, .error e => ([], some e)
      else if ind = "EMA 20" then
        match data.colGet "Datetime", data.colGet "EMA_20" with
        | .ok _, .ok _ => ([], none)
        | .error e, _ => ([], some e)
        | _, .error e => ([], some e)
      else if ind = "RSI" then
        match data.colGet "RSI" with
        | .ok v => ([.rsiChart v], none)
        | .error e => ([], some e)
      else if ind = "MACD" then
        match data.colGet "MACD", data.colGet "MACD_Signal" with
        | .ok m, .ok s => ([.macdChart m s], none)
        | .error e, _ => ([], some e)
        | _, .error e => ([], some e)
      else ([], none)
    match step.2 with
    | some e => (step.1, some e)
    | none =>
      let tail := indicatorLoop data rest
      (step.1 ++ tail.1, tail.2)

/-- The outcome of the main content area: the items it rendered, the
uncaught exception when one aborted it, and the final value of the
`data` variable (`None` when the primary fetch failed). -/
structure MainOut where
  items : List Item
  err : Option String
  data : Option Frame

/-- Lines 106–165: the main content area.  The primary series runs
through normalize, enrich and metrics; the metrics, the sub-charts of
toggled indicators, the price chart, the two tables and the download
button are rendered in that (execution) order. -/
def mainSection (provider : DlReq → DlResult) (now : Int) (sel : Selections) : MainOut :=
  let fr := fetch_stock_data provider now sel.ticker sel.time_period sel.interval
  let items0 := fr.2.map msgItem
  match fr.1 with
  | none => ⟨items0, none, none⟩
  | some d0 =>
    match process_data d0 with
    | .error e => ⟨items0, some e, none⟩
    | .ok d1 =>
      match add_technical_indicators d1 with
      | .error e => ⟨items0, some e, none⟩
      | .ok d2 =>
        match add_more_indicators d2 with
        | .error e => ⟨items0, some e, none⟩
        | .ok data =>
          match calculate_metrics data with
          | .error e => ⟨items0, some e, none⟩
          | .ok (last_close, change, pct_change, high, low, volume) =>
            let items1 := items0 ++
              [.headline (lookupName sel.ticker) last_close change pct_change,
               .summaryRow high low volume]
            let chartCols : Except String (List Cell × List Cell) :=
              if sel.chart_type = "Candlestick" then do
                let x ← data.colGet "Datetime"
                let _ ← data.colGet "Open"
                let _ ← data.colGet "High"
                let _ ← data.colGet "Low"
                let c ← data.colGet "Close"
                pure (x, c)
              else do
                let x ← data.colGet "Datetime"
                let c ← data.colGet "Close"
                pure (x, c)
            match chartCols with
            | .error e => ⟨items1, some e, none⟩
            | .ok (xcol, closecol) =>
              let loop := indicatorLoop data sel.indicators
              match loop.2 with
              | some e => ⟨items1 ++ loop.1, some e, none⟩
              | none =>
                let items2 := items1 ++ loop.1 ++
                  [.priceChart sel.chart_type xcol closecol]
                match data.subFrame ["Datetime", "Open", "High", "Low", "Close", "Volume"] with
                | .error e => ⟨items2, some e, none⟩
                | .ok hist =>
                  let items3 := items2 ++ [.histTable hist]
                  match data.subFrame ["Datetime", "SMA_20", "EMA_20", "RSI", "MACD", "MACD_Signal"] with
                  | .error e => ⟨items3, some e, none⟩
                  | .ok ind =>
                    ⟨items3 ++ [.indTable ind, .downloadCsv (sel.ticker ++ "_data.csv")],
                     none, some data⟩

/-- Lines 168–178: the comparison chart section.  Line 172 reads the
primary `data` variable for the first overlay trace: when the primary
fetch failed, `data` is still `None` and the subscript raises
`TypeError`, which nothing catches. -/
def compareSection (provider : DlReq → DlResult) (now : Int) (sel : Selections)
    (data : Option Frame) : List Item × Option String :=
  let fr := fetch_stock_data provider now sel.compare_ticker sel.time_period sel.interval
  let items0 := fr.2.map msgItem
  match fr.1 with
  | none => (items0, none)
  | some c0 =>
    match process_data c0 with
    | .error e => (items0, some e)
    | .ok compare_data =>
      match data with
      | none => (items0, some "TypeError: NoneType object is not subscriptable")
      | some d =>
        match (do
          let x1 ← d.colGet "Datetime"
          let y1 ← d.colGet "Close"
          let x2 ← compare_data.colGet "Datetime"
          let y2 ← compare_data.colGet "Close"
          pure (Item.compareChart x1 y1 x2 y2) : Except String Item) with
        | .error e => (items0, some e)
        | .ok it => (items0 ++ [it], none)

/-- Lines 182–189: the watchlist fan-out.  One 1-day/1-minute fetch per
watchlist symbol; the guard of line 184 re-checks emptiness on top of the
`None` check; one compact metric is rendered per surviving symbol. -/
def watchlistLoop (provider : DlReq → DlResult) (now : Int) :
    List (String × String) → List Item × Option String
  | [] => ([], none)
  | (symbol, name) :: rest =>
    let fr := fetch_stock_data provider now symbol "1d" "1m"
    let items0 := fr.2.map msgItem
    let step : List Item × Option String :=
      match fr.1 with
      | none => ([], none)
      | some d0 =>
        if d0.empty then ([], none)
        else
          match process_data d0 with
          | .error e => ([], some e)
          | .ok rt =>
            match (do
              let cl ← rt.colGet "Close"
              let op ← rt.colGet "Open"
              let lastP ← ilocLast cl
              let firstO ← ilocFirst op
              let chg := lastP.sub firstO
              let pct := (chg.div firstO).mul (Cell.num 100)
              pure (Item.watchMetric name lastP chg pct) : Except String Item) with
            | .error e => ([], some e)
            | .ok it => ([it], none)
    match step.2 with
    | some e => (items0 ++ step.1, some e)
    | none =>
      let tail := watchlistLoop provider now rest
      (items0 ++ step.1 ++ tail.1, tail.2)

/-- The outcome of a render pass: the items rendered, in order, and the
uncaught exception that aborted the pass, when one did. -/
structure RenderResult where
  items : List Item
  aborted : Option String
deriving DecidableEq

/-- The full render pass (lines 97–193): sidebar countdown, main content
area, comparison section, watchlist fan-out, about note.  `t1` and `t2`
are the two adjacent clock readings of lines 100–101.  An uncaught
exception stops the script; the items rendered before it stay. -/
def script (provider : DlReq → DlResult) (now : Int) (t1 t2 : Rat)
    (sel : Selections) : RenderResult :=
  let cItem := Item.countdownNote (countdown t1 t2)
  let m := mainSection provider now sel
  match m.err with
  | some e => ⟨cItem :: m.items, some e⟩
  | none =>
    let c := compareSection provider now sel m.data
    match c.2 with
    | some e => ⟨cItem :: (m.items ++ c.1), some e⟩
    | none =>
      let w := watchlistLoop provider now stock_names
      match w.2 with
      | some e => ⟨cItem :: (m.items ++ c.1 ++ w.1), some e⟩
      | none => ⟨cItem :: (m.items ++ c.1 ++ w.1 ++ [Item.aboutNote]), none⟩

/-- The call `process_data(h[r])` acting on an explicit heap of frame
objects, capturing the in-place semantics of the Python function: every
statement of `process_data` mutates the argument object (the index
assignments of lines 47–49, and `reset_index`/`rename` with
`inplace=True` on lines 50–51), so the object at `r` ends in the state
the function returns; the `AttributeError` path raises at the very first
attribute read, before any mutation, leaving the heap unchanged. -/
def process_data_heap (h : List Frame) (r : Nat) : List Frame × Except String Nat :=
  match h[r]? with
  | none => (h, .error "IndexError: no such object")
  | some f =>
    match process_data f with
    | .error e => (h, .error e)
    | .ok g => (h.set r g, .ok r)

/-- The guard of line 184: `real_time_data is not None and not
real_time_data.empty`. -/
def watchGuard (r : Option Frame) : Bool :=
  match r with
  | some d => !d.empty
  | none => false

/-- True when the list is ascending, each entry at most the next. -/
def sortedAscB : List Int → Bool
  | [] => true
  | [_] => true
  | a :: b :: rest => decide (a ≤ b) && sortedAscB (b :: rest)

/-- The instants of the timestamp cells of a column, in order. -/
def instantsOf (xs : List Cell) : List Int :=
  xs.filterMap (fun c => match c with | .time t => some t.instant | _ => none)

/-- A small OHLCV frame as the provider returns one: a naive two-row
DatetimeIndex named Date and the five standard columns. -/
def okFrame : Frame :=
  { idx := .dt "Date" none [100, 200],
    cols := [("Open", [Cell.num 10, Cell.num 11]),
             ("High", [Cell.num 12, Cell.num 13]),
             ("Low", [Cell.num 9, Cell.num 10]),
             ("Close", [Cell.num 11, Cell.num 12]),
             ("Volume", [Cell.num 1000, Cell.num 1100])] }

/-- The normalized form of `okFrame`: what one application of
`process_data` returns on it. -/
def okFrameNormalized : Frame :=
  { idx := .range 2,
    cols := ("Datetime", [Cell.time ⟨100, some Zone.usEastern⟩,
                          Cell.time ⟨200, some Zone.usEastern⟩]) :: okFrame.cols }

/-- An empty provider result: the standard columns with no rows. -/
def emptyFrame : Frame :=
  { idx := .dt "Date" none [],
    cols := [("Open", []), ("High", []), ("Low", []), ("Close", []), ("Volume", [])] }

/-- A two-row series whose timestamps are out of chronological order. -/
def unsortedFrame : Frame :=
  { idx := .dt "Date" none [500, 300],
    cols := [("Close", [Cell.num 1, Cell.num 2])] }

/-- The five-row normalized series of end-to-end scenario 1: closes
[100, 102, 101, 105, 107]. -/
def fiveFrame : Frame :=
  { idx := .range 5,
    cols := [("Datetime", ([0, 1, 2, 3, 4] : List Int).map
               (fun v => Cell.time ⟨v, some Zone.usEastern⟩)),
             ("Open", ([100, 101, 102, 104, 106] : List Rat).map Cell.num),
             ("High", ([101, 103, 102, 106, 108] : List Rat).map Cell.num),
             ("Low", ([99, 101, 100, 104, 106] : List Rat).map Cell.num),
             ("Close", ([100, 102, 101, 105, 107] : List Rat).map Cell.num),
             ("Volume", ([10, 20, 30, 40, 50] : List Rat).map Cell.num)] }

/-- A provider returning the small frame for every request. -/
def providerAll : DlReq → DlResult := fun _ => .ok okFrame

/-- The provider of the failing scenario: an empty result for the primary
ticker AAPL, data for every other symbol. -/
def providerNoPrimary : DlReq → DlResult := fun r =>
  if r.tickerOf = "AAPL" then .ok emptyFrame else .ok okFrame

/-- A provider where only the comparison ticker GOOGL fails with a raised
exception. -/
def providerNoCompare : DlReq → DlResult := fun r =>
  if r.tickerOf = "GOOGL" then .raises "connection reset" else .ok okFrame

/-- Default selections: AAPL over one day of one-minute bars, line chart,
no indicator toggles, compared against GOOGL. -/
def sel0 : Selections :=
  { ticker := "AAPL", time_period := "1d", interval := "1m",
    chart_type := "Line", indicators := [], compare_ticker := "GOOGL" }

/-- True exactly for watchlist metric items. -/
def Item.isWatch : Item → Bool
  | .watchMetric _ _ _ _ => true
  | _ => false

/-- True exactly for comparison chart items. -/
def Item.isCompare : Item → Bool
  | .compareChart _ _ _ _ => true
  | _ => false

/-- True exactly for the headline metric item of the main dashboard. -/
def Item.isHeadline : Item → Bool
  | .headline _ _ _ _ => true
  | _ => false

/-- The normalized form of `unsortedFrame`: what `process_data` returns
on it. -/
def unsortedNormalized : Frame :=
  { idx := .range 2,
    cols := [("Datetime", [Cell.time ⟨500, some Zone.usEastern⟩,
                           Cell.time ⟨300, some Zone.usEastern⟩]),
             ("Close", [Cell.num 1, Cell.num 2])] }

/-- The names of the five appended indicator columns, in assignment
order. -/
def indicatorNames : List String := ["SMA_20", "EMA_20", "RSI", "MACD", "MACD_Signal"]

theorem except_bind_ok {ε α β : Type} (a : α) (f : α → Except ε β) :
    (Except.ok a : Except ε α) >>= f = f a := rfl

theorem numsOf_map_num (qs : List Rat) : numsOf (qs.map Cell.num) = qs := by
  induction qs with
  | nil => rfl
  | cons q l ih => simpa [numsOf] using ih

theorem colMax_map_num (qs : List Rat) (h : qs ≠ []) :
    colMax (qs.map Cell.num) = Cell.num (listMax qs) := by
  cases qs with
  | nil => cases h rfl
  | cons a l =>
    have hn := numsOf_map_num (a :: l)
    simp only [colMax, hn, listMax]

theorem colMin_map_num (qs : List Rat) (h : qs ≠ []) :
    colMin (qs.map Cell.num) = Cell.num (listMin qs) := by
  cases qs with
  | nil => cases h rfl
  | cons a l =>
    have hn := numsOf_map_num (a :: l)
    simp only [colMin, hn, listMin]

theorem colSum_map_num (qs : List Rat) : colSum (qs.map Cell.num) = Cell.num qs.sum := by
  simp [colSum, numsOf_map_num]

theorem ilocLast_map_num (qs : List Rat) (q : Rat) (h : qs.getLast? = some q) :
    ilocLast (qs.map Cell.num) = .ok (Cell.num q) := by
  simp [ilocLast, List.getLast?_map, h]

theorem ilocFirst_map_num (qs : List Rat) (q : Rat) (h : qs.head? = some q) :
    ilocFirst (qs.map Cell.num) = .ok (Cell.num q) := by
  simp [ilocFirst, List.head?_map, h]

/-- C3: the Fetcher builds the provider request by period: for `1wk` it
derives an explicit start/end range of the trailing 7 calendar days
ending now (never the native 1wk period); for `1d` it uses the native
1-day shortcut; every other period token is passed straight through with
the selected interval. -/
theorem c3_request (t i p : String) (now : Int) (h1 : p ≠ "1wk") (h2 : p ≠ "1d") :
    yf_request t "1wk" i now = DlReq.byRange t (now - 7 * 86400) now i ∧
    yf_request t "1d" i now = DlReq.byPeriod t "1d" i ∧
    yf_request t p i now = DlReq.byPeriod t p i := by
  refine ⟨by simp [yf_request], by simp [yf_request], by simp [yf_request, h1, h2]⟩

/-- C3 witness: the three request shapes at concrete inputs. -/
theorem c3_witness :
    yf_request "AAPL" "1wk" "1h" 1000 = DlReq.byRange "AAPL" (1000 - 7 * 86400) 1000 "1h" ∧
    yf_request "AAPL" "1d" "1h" 1000 = DlReq.byPeriod "AAPL" "1d" "1h" ∧
    yf_request "AAPL" "1mo" "1h" 1000 = DlReq.byPeriod "AAPL" "1mo" "1h" :=
  c3_request "AAPL" "1h" "1mo" 1000 (by decide) (by decide)

/-- C4 counterexample: one application of the Normalizer succeeds on a
timestamp-indexed series, but the second application does not return the
same (or any) result: it raises `AttributeError`, because the normalized
frame's index is a plain `RangeIndex` without timezone attributes. -/
theorem c4_counterexample :
    process_data okFrame = Except.ok okFrameNormalized ∧
    process_data okFrameNormalized ≠ Except.ok okFrameNormalized := by
  constructor
  · decide
  · decide

/-- C4 amended: applying the Normalizer to any result of the Normalizer
fails with `AttributeError` instead of reproducing the result — the
function is not idempotent, it is undefined on its own output. -/
theorem c4_second_application_fails (f g : Frame) (h : process_data f = Except.ok g) :
    process_data g = Except.error "AttributeError: RangeIndex object has no attribute tzinfo" := by
  obtain ⟨idx, cols⟩ := f
  cases idx with
  | range n => simp [process_data] at h
  | dt name tz vals =>
    simp only [process_data] at h
    rw [← Except.ok.inj h]
    simp [process_data]

/-- C4 witness: the second application fails on the concrete normalized
frame. -/
theorem c4_witness :
    process_data okFrameNormalized =
      Except.error "AttributeError: RangeIndex object has no attribute tzinfo" :=
  c4_second_application_fails okFrame okFrameNormalized (by decide)

/-- C5 counterexample: a non-empty input series with out-of-order
timestamps is normalized without error, and the output timestamp column
is not chronologically sorted — the Normalizer never sorts. -/
theorem c5_counterexample :
    unsortedFrame.nRows ≠ 0 ∧
    process_data unsortedFrame = Except.ok unsortedNormalized ∧
    unsortedNormalized.colGet "Datetime" =
      Except.ok [Cell.time ⟨500, some Zone.usEastern⟩, Cell.time ⟨300, some Zone.usEastern⟩] ∧
    sortedAscB (instantsOf [Cell.time ⟨500, some Zone.usEastern⟩,
      Cell.time ⟨300, some Zone.usEastern⟩]) = false := by
  refine ⟨by decide, by decide, by decide, by decide⟩

/-- C5 amended: the Normalizer preserves the row order and the stored
instants of every timestamp-indexed input (attaching UTC first when the
input is naive changes no instant, since UTC has offset zero), tags every
output timestamp with the fixed US/Eastern display zone, and therefore
returns a chronologically ascending series exactly when the input index
was already ascending. -/
theorem c5_normalizer_order (name : String) (tz : Option Zone) (vals : List Int)
    (cols : List (String × List Cell)) :
    process_data { idx := Idx.dt name tz vals, cols := cols } = Except.ok
      { idx := Idx.range vals.length,
        cols := (if name = "Date" then "Datetime" else name,
                 vals.map (fun v => Cell.time ⟨v, some Zone.usEastern⟩)) ::
                cols.map (fun c => (if c.1 = "Date" then "Datetime" else c.1, c.2)) } ∧
    instantsOf (vals.map (fun v => Cell.time ⟨v, some Zone.usEastern⟩)) = vals ∧
    (∀ c ∈ vals.map (fun v => Cell.time ⟨v, some Zone.usEastern⟩),
      ∃ v, c = Cell.time ⟨v, some Zone.usEastern⟩) ∧
    (sortedAscB vals = true →
      sortedAscB (instantsOf (vals.map (fun v => Cell.time ⟨v, some Zone.usEastern⟩))) = true) := by
  have hinst : instantsOf (vals.map (fun v => Cell.time ⟨v, some Zone.usEastern⟩)) = vals := by
    induction vals with
    | nil => rfl
    | cons v l ih => simpa [instantsOf] using ih
  refine ⟨by simp [process_data], hinst, by simp, by intro hs; rwa [hinst]⟩

/-- C5 witness: a sorted two-row input stays sorted after
normalization. -/
theorem c5_witness :
    instantsOf (([300, 500] : List Int).map (fun v => Cell.time ⟨v, some Zone.usEastern⟩)) =
      [300, 500] ∧
    sortedAscB (instantsOf (([300, 500] : List Int).map
      (fun v => Cell.time ⟨v, some Zone.usEastern⟩))) = true :=
  ⟨(c5_normalizer_order "Date" none [300, 500] []).2.1,
   (c5_normalizer_order "Date" none [300, 500] []).2.2.2 (by decide)⟩

/-- C6 counterexample: the Normalizer is not pure — the call mutates its
argument object in place, so the heap containing the input frame is
changed by the call. -/
theorem c6_counterexample :
    (process_data_heap [okFrame] 0).1 ≠ [okFrame] ∧
    (process_data_heap [okFrame] 0).1 = [okFrameNormalized] := by
  constructor
  · decide
  · decide

/-- C6 amended: the Normalizer mutates exactly its input object — after a
successful call the caller's object holds the normalized frame the call
returned, and every other heap object is untouched. -/
theorem c6_inplace_mutation (h : List Frame) (r : Nat) (f g : Frame)
    (hr : h[r]? = some f) (hp : process_data f = Except.ok g) :
    process_data_heap h r = (h.set r g, Except.ok r) ∧
    (h.set r g)[r]? = some g ∧
    (∀ j, j ≠ r → (h.set r g)[j]? = h[j]?) := by
  have hlt : r < h.length := by
    by_contra hge
    rw [List.getElem?_eq_none (Nat.le_of_not_lt hge)] at hr
    cases hr
  refine ⟨by simp [process_data_heap, hr, hp], by simp [List.getElem?_set_self hlt], ?_⟩
  intro j hj
  exact List.getElem?_set_ne (fun e => hj e.symm)

/-- C6 witness: on a concrete two-object heap the call rewrites object 0
to its normalized form and leaves object 1 alone. -/
theorem c6_witness :
    process_data_heap [okFrame, emptyFrame] 0 = ([okFrameNormalized, emptyFrame], Except.ok 0) ∧
    ([okFrame, emptyFrame].set 0 okFrameNormalized)[1]? = ([okFrame, emptyFrame] : List Frame)[1]? :=
  ⟨(c6_inplace_mutation [okFrame, emptyFrame] 0 okFrame okFrameNormalized rfl (by decide)).1,
   (c6_inplace_mutation [okFrame, emptyFrame] 0 okFrame okFrameNormalized rfl (by decide)).2.2
     1 (by decide)⟩

/-- C9 counterexample: the displayed countdown is not zero — with the two
adjacent clock readings equal, line 103 displays the full refresh
interval, 20. -/
theorem c9_counterexample : countdown 0 0 ≠ 0 ∧ countdown 0 0 = 20 := by
  have h : countdown 0 0 = 20 := by
    simp [countdown, time_since_refresh, refresh_interval]
  exact ⟨by rw [h]; decide, h⟩

/-- C9 amended: the countdown is degenerate, but the constant it displays
is the full refresh interval: the elapsed time computed from the two
equal adjacent readings is 0, so every render pass opens with the caption
value 20, never a counted-down value. -/
theorem c9_countdown_constant (t1 t2 : Rat) (h : t2 = t1) :
    time_since_refresh t1 t2 = 0 ∧ countdown t1 t2 = refresh_interval ∧
    countdown t1 t2 = 20 ∧
    ∀ (provider : DlReq → DlResult) (now : Int) (sel : Selections),
      (script provider now t1 t2 sel).items.head? = some (Item.countdownNote 20) := by
  have hts : time_since_refresh t1 t2 = 0 := by
    simp [time_since_refresh, h]
  have hcd : countdown t1 t2 = 20 := by
    simp [countdown, hts, refresh_interval]
  refine ⟨hts, by simp [countdown, hts], hcd, ?_⟩
  intro provider now sel
  unfold script
  rw [hcd]
  cases hm : (mainSection provider now sel).err with
  | some e => simp [hm]
  | none =>
    cases hc2 : (compareSection provider now sel (mainSection provider now sel).data).2 with
    | some e => simp [hm, hc2]
    | none =>
      cases hw : (watchlistLoop provider now stock_names).2 with
      | some e => simp [hm, hc2, hw]
      | none => simp [hm, hc2, hw]

/-- C9 witness: at equal concrete readings the elapsed time is 0 and the
caption value is 20. -/
theorem c9_witness : time_since_refresh 0 0 = 0 ∧ countdown 0 0 = 20 :=
  ⟨(c9_countdown_constant 0 0 rfl).1, (c9_countdown_constant 0 0 rfl).2.2.1⟩

/-- C10: the Fetcher returns either the no-data signal `None` or a
non-empty frame — never an empty frame — so the extra emptiness check of
the watchlist guard (line 184) is equivalent to the `None` check alone
and can never be the deciding condition. -/
theorem c10_nonempty (provider : DlReq → DlResult) (now : Int) (t p i : String) :
    (∀ d, (fetch_stock_data provider now t p i).1 = some d → d.empty = false) ∧
    watchGuard (fetch_stock_data provider now t p i).1 =
      (fetch_stock_data provider now t p i).1.isSome := by
  unfold fetch_stock_data
  cases provider (yf_request t p i now) with
  | raises e => simp [watchGuard]
  | ok d =>
    cases hd : d.empty with
    | true => simp [hd, watchGuard]
    | false =>
      refine ⟨?_, by simp [hd, watchGuard]⟩
      intro d2 h2
      simp [hd] at h2
      exact h2 ▸ hd

/-- C10 witness: a provider returning the concrete non-empty frame makes
the fetch return it, the frame is non-empty, and the guard agrees with
the `None` check. -/
theorem c10_witness :
    okFrame.empty = false ∧
    watchGuard (fetch_stock_data (fun _ => DlResult.ok okFrame) 0 "AAPL" "1d" "1m").1 =
      (fetch_stock_data (fun _ => DlResult.ok okFrame) 0 "AAPL" "1d" "1m").1.isSome :=
  ⟨(c10_nonempty (fun _ => DlResult.ok okFrame) 0 "AAPL" "1d" "1m").1 okFrame (by decide),
   (c10_nonempty (fun _ => DlResult.ok okFrame) 0 "AAPL" "1d" "1m").2⟩

theorem except_bind_ok2 {ε α β : Type} (a : α) (f : α → Except ε β) :
    Except.bind (Except.ok a) f = f a := rfl

/-- C2: for every non-empty normalized series the Metrics Calculator
returns the Close of the last row, the change against the Close of the
first row, the percent change (change over first close times 100), the
maximum of the High column, the minimum of the Low column and the sum of
the Volume column. -/
theorem c2_metrics (f : Frame) (closes highs lows vols : List Rat) (c0 cl : Rat)
    (hc : f.colGet "Close" = .ok (closes.map Cell.num))
    (hh : f.colGet "High" = .ok (highs.map Cell.num))
    (hl : f.colGet "Low" = .ok (lows.map Cell.num))
    (hv : f.colGet "Volume" = .ok (vols.map Cell.num))
    (hfirst : closes.head? = some c0) (hlast : closes.getLast? = some cl)
    (hc0 : c0 ≠ 0) (hhne : highs ≠ []) (hlne : lows ≠ []) :
    calculate_metrics f = .ok (Cell.num cl, Cell.num (cl - c0),
      Cell.num ((cl - c0) / c0 * 100), Cell.num (listMax highs),
      Cell.num (listMin lows), Cell.num vols.sum) := by
  simp only [calculate_metrics, hc, hh, hl, hv, except_bind_ok,
    ilocLast_map_num closes cl hlast, ilocFirst_map_num closes c0 hfirst,
    colMax_map_num highs hhne, colMin_map_num lows hlne, colSum_map_num vols]
  simp [Cell.sub, Cell.div, Cell.mul, hc0, pure, Except.pure]

/-- C2 witness: the five-row scenario with closes [100, 102, 101, 105,
107] yields last close 107, change 7, percent change 7, high 108, low
99, volume 150. -/
theorem c2_witness :
    calculate_metrics fiveFrame = .ok (Cell.num 107, Cell.num 7, Cell.num 7,
      Cell.num 108, Cell.num 99, Cell.num 150) := by
  have h := c2_metrics fiveFrame [100, 102, 101, 105, 107] [101, 103, 102, 106, 108]
    [99, 101, 100, 104, 106] [10, 20, 30, 40, 50] 100 107
    rfl rfl rfl rfl rfl rfl (by norm_num) (by simp) (by simp)
  rw [h]
  norm_num [listMax, listMin, max_def, min_def]

/-- C7: the Fetcher never raises to its caller — an empty provider result
yields the no-data signal together with the non-fatal warning, a raised
provider exception yields the same no-data signal together with the
error message, and on the no-data signal the caller skips all downstream
processing of the main section, rendering only the fetch messages. -/
theorem c7_fetcher (provider : DlReq → DlResult) (now : Int) (t p i : String) :
    (∀ d, provider (yf_request t p i now) = .ok d → d.empty = true →
      fetch_stock_data provider now t p i = (none, [Msg.warning (noDataMsg t)])) ∧
    (∀ e, provider (yf_request t p i now) = .raises e →
      fetch_stock_data provider now t p i = (none, [Msg.errorMsg (fetchErrMsg t e)])) ∧
    (∀ sel : Selections,
      (fetch_stock_data provider now sel.ticker sel.time_period sel.interval).1 = none →
      (mainSection provider now sel).err = none ∧
      (mainSection provider now sel).data = none ∧
      (mainSection provider now sel).items =
        (fetch_stock_data provider now sel.ticker sel.time_period sel.interval).2.map msgItem) := by
  refine ⟨?_, ?_, ?_⟩
  · intro d hd hemp
    simp [fetch_stock_data, hd, hemp]
  · intro e he
    simp [fetch_stock_data, he]
  · intro sel hnone
    rcases hfr : fetch_stock_data provider now sel.ticker sel.time_period sel.interval
      with ⟨o, msgs⟩
    rw [hfr] at hnone
    simp only at hnone
    subst hnone
    unfold mainSection
    simp [hfr]

/-- C7 witness: a provider that raises produces the no-data signal with
the error message, and a provider with an empty result produces the
no-data signal with the warning. -/
theorem c7_witness :
    fetch_stock_data (fun _ => DlResult.raises "boom") 0 "AAPL" "1d" "1m" =
      (none, [Msg.errorMsg (fetchErrMsg "AAPL" "boom")]) ∧
    fetch_stock_data (fun _ => DlResult.ok emptyFrame) 0 "AAPL" "1d" "1m" =
      (none, [Msg.warning (noDataMsg "AAPL")]) :=
  ⟨(c7_fetcher (fun _ => DlResult.raises "boom") 0 "AAPL" "1d" "1m").2.1 "boom" rfl,
   (c7_fetcher (fun _ => DlResult.ok emptyFrame) 0 "AAPL" "1d" "1m").1 emptyFrame rfl (by decide)⟩

theorem find?_eq_in_append {α : Type} (xs ys : List α) (p : α → Bool) (a : α)
    (h : xs.find? p = some a) : (xs ++ ys).find? p = some a := by
  rw [List.find?_append, h]
  rfl

theorem colGet_cols_append (f : Frame) (extra : List (String × List Cell)) (n : String)
    (xs : List Cell) (h : f.colGet n = .ok xs) :
    Frame.colGet { idx := f.idx, cols := f.cols ++ extra } n = .ok xs := by
  unfold Frame.colGet at h ⊢
  cases hf : f.cols.find? (fun c => c.1 == n) with
  | none => rw [hf] at h; cases h
  | some c =>
    rw [hf] at h
    rw [find?_eq_in_append _ extra _ c hf]
    exact h

theorem setCol_fresh (f : Frame) (name : String) (xs : List Cell)
    (h : ∀ c ∈ f.cols, c.1 ≠ name) :
    f.setCol name xs = { idx := f.idx, cols := f.cols ++ [(name, xs)] } := by
  unfold Frame.setCol
  have hany : f.cols.any (fun c => c.1 == name) = false := by
    rw [List.any_eq_false]
    intro c hc
    simpa using h c hc
  simp [hany]

theorem asNums_map_num (qs : List Rat) : asNums (qs.map Cell.num) = .ok qs := by
  induction qs with
  | nil => rfl
  | cons q l ih => simp [asNums, ih]

theorem sma_indicator_length (w : Nat) (xs : List Rat) :
    (sma_indicator w xs).length = xs.length := by
  simp [sma_indicator]

theorem ema_indicator_length (w : Nat) (xs : List Rat) :
    (ema_indicator w xs).length = xs.length := by
  simp [ema_indicator]

theorem rsi_length (w : Nat) (xs : List Rat) : (rsi w xs).length = xs.length := by
  simp [rsi]

theorem macd_length (xs : List Rat) : (macd xs).length = xs.length := by
  simp [macd]

theorem macd_signal_length (xs : List Rat) : (macd_signal xs).length = xs.length := by
  simp [macd_signal]

/-- C8: the Indicator Enricher appends exactly the five indicator columns
SMA_20, EMA_20, RSI, MACD, MACD_Signal, in that order, each computed
solely from the close column with the fixed windows 20/20/14/(12,26)/9;
every pre-existing column is unchanged in value and order, the index is
unchanged, and every appended column has exactly one value per input
row. -/
theorem c8_enricher (f : Frame) (closes : List Rat)
    (hc : f.colGet "Close" = .ok (closes.map Cell.num))
    (hfresh : ∀ c ∈ f.cols, c.1 ∉ indicatorNames)
    (hlen : closes.length = f.nRows) :
    (add_technical_indicators f).bind add_more_indicators = .ok
      { idx := f.idx,
        cols := f.cols ++
          [("SMA_20", sma_indicator 20 closes), ("EMA_20", ema_indicator 20 closes),
           ("RSI", rsi 14 closes), ("MACD", macd closes),
           ("MACD_Signal", macd_signal closes)] } ∧
    (sma_indicator 20 closes).length = f.nRows ∧
    (ema_indicator 20 closes).length = f.nRows ∧
    (rsi 14 closes).length = f.nRows ∧
    (macd closes).length = f.nRows ∧
    (macd_signal closes).length = f.nRows := by
  have hmem : ∀ (n : String), n ∈ indicatorNames → ∀ c ∈ f.cols, c.1 ≠ n := by
    intro n hn c hc2 e
    exact hfresh c hc2 (e ▸ hn)
  have hS := hmem "SMA_20" (by simp [indicatorNames])
  have hE := hmem "EMA_20" (by simp [indicatorNames])
  have hR := hmem "RSI" (by simp [indicatorNames])
  have hM := hmem "MACD" (by simp [indicatorNames])
  have hG := hmem "MACD_Signal" (by simp [indicatorNames])
  refine ⟨?_, by rw [sma_indicator_length, hlen], by rw [ema_indicator_length, hlen],
    by rw [rsi_length, hlen], by rw [macd_length, hlen], by rw [macd_signal_length, hlen]⟩
  have hE1 : ∀ c ∈ f.cols ++ [("SMA_20", sma_indicator 20 closes)], c.1 ≠ "EMA_20" := by
    intro c hc2
    simp only [List.mem_append, List.mem_cons, List.not_mem_nil, or_false] at hc2
    rcases hc2 with h | rfl
    · exact hE c h
    · simp
  have hcg : Frame.colGet
      { idx := f.idx, cols := f.cols ++ [("SMA_20", sma_indicator 20 closes),
        ("EMA_20", ema_indicator 20 closes)] } "Close" = .ok (closes.map Cell.num) :=
    colGet_cols_append f _ "Close" _ hc
  have hR1 : ∀ c ∈ f.cols ++ [("SMA_20", sma_indicator 20 closes),
      ("EMA_20", ema_indicator 20 closes)], c.1 ≠ "RSI" := by
    intro c hc2
    simp only [List.mem_append, List.mem_cons, List.not_mem_nil, or_false] at hc2
    rcases hc2 with h | rfl | rfl
    · exact hR c h
    · simp
    · simp
  have hM1 : ∀ c ∈ (f.cols ++ [("SMA_20", sma_indicator 20 closes),
      ("EMA_20", ema_indicator 20 closes)]) ++ [("RSI", rsi 14 closes)], c.1 ≠ "MACD" := by
    intro c hc2
    simp only [List.append_assoc, List.cons_append, List.nil_append, List.mem_append,
      List.mem_cons, List.not_mem_nil, or_false] at hc2
    rcases hc2 with h | rfl | rfl | rfl
    · exact hM c h
    · simp
    · simp
    · simp
  have hG1 : ∀ c ∈ ((f.cols ++ [("SMA_20", sma_indicator 20 closes),
      ("EMA_20", ema_indicator 20 closes)]) ++ [("RSI", rsi 14 closes)]) ++
      [("MACD", macd closes)], c.1 ≠ "MACD_Signal" := by
    intro c hc2
    simp only [List.append_assoc, List.cons_append, List.nil_append, List.mem_append,
      List.mem_cons, List.not_mem_nil, or_false] at hc2
    rcases hc2 with h | rfl | rfl | rfl | rfl
    · exact hG c h
    · simp
    · simp
    · simp
    · simp
  have hATI : add_technical_indicators f = Except.ok
      { idx := f.idx, cols := f.cols ++ [("SMA_20", sma_indicator 20 closes),
        ("EMA_20", ema_indicator 20 closes)] } := by
    unfold add_technical_indicators
    rw [hc, except_bind_ok, asNums_map_num, except_bind_ok]
    simp only [setCol_fresh f "SMA_20" (sma_indicator 20 closes) hS]
    simp only [setCol_fresh { idx := f.idx, cols := f.cols ++
      [("SMA_20", sma_indicator 20 closes)] } "EMA_20" (ema_indicator 20 closes) hE1]
    simp [pure, Except.pure, List.append_assoc]
  have hAMI : add_more_indicators
      { idx := f.idx, cols := f.cols ++ [("SMA_20", sma_indicator 20 closes),
        ("EMA_20", ema_indicator 20 closes)] } = Except.ok
      { idx := f.idx,
        cols := f.cols ++
          [("SMA_20", sma_indicator 20 closes), ("EMA_20", ema_indicator 20 closes),
           ("RSI", rsi 14 closes), ("MACD", macd closes),
           ("MACD_Signal", macd_signal closes)] } := by
    unfold add_more_indicators
    rw [hcg, except_bind_ok, asNums_map_num, except_bind_ok]
    simp only [setCol_fresh { idx := f.idx, cols := f.cols ++
      [("SMA_20", sma_indicator 20 closes), ("EMA_20", ema_indicator 20 closes)] }
      "RSI" (rsi 14 closes) hR1]
    simp only [setCol_fresh { idx := f.idx, cols := (f.cols ++
      [("SMA_20", sma_indicator 20 closes), ("EMA_20", ema_indicator 20 closes)]) ++
      [("RSI", rsi 14 closes)] } "MACD" (macd closes) hM1]
    simp only [setCol_fresh { idx := f.idx, cols := ((f.cols ++
      [("SMA_20", sma_indicator 20 closes), ("EMA_20", ema_indicator 20 closes)]) ++
      [("RSI", rsi 14 closes)]) ++ [("MACD", macd closes)] } "MACD_Signal"
      (macd_signal closes) hG1]
    simp [pure, Except.pure, List.append_assoc]
  rw [hATI, except_bind_ok2, hAMI]

/-- C8 witness: enriching the concrete normalized frame appends the five
indicator columns of its two-entry close series and preserves the two
rows. -/
theorem c8_witness :
    (add_technical_indicators okFrameNormalized).bind add_more_indicators = .ok
      { idx := okFrameNormalized.idx,
        cols := okFrameNormalized.cols ++
          [("SMA_20", sma_indicator 20 [11, 12]), ("EMA_20", ema_indicator 20 [11, 12]),
           ("RSI", rsi 14 [11, 12]), ("MACD", macd [11, 12]),
           ("MACD_Signal", macd_signal [11, 12])] } ∧
    (sma_indicator 20 [11, 12]).length = okFrameNormalized.nRows ∧
    (ema_indicator 20 [11, 12]).length = okFrameNormalized.nRows ∧
    (rsi 14 [11, 12]).length = okFrameNormalized.nRows ∧
    (macd [11, 12]).length = okFrameNormalized.nRows ∧
    (macd_signal [11, 12]).length = okFrameNormalized.nRows :=
  c8_enricher okFrameNormalized [11, 12] rfl (by decide) rfl

/-- C1 (code bug): when the primary fetch fails (empty result for AAPL)
while the comparison fetch succeeds, the render pass aborts with the
uncaught TypeError of line 172 — the comparison section reads the
primary `data`, which is `None` — so neither the comparison chart nor
any watchlist entry renders.  In the symmetric case (comparison fetch
raises, primary succeeds) the pass completes: the primary dashboard
renders fully, only the comparison chart is absent, and the watchlist
still renders.  The first half contradicts the claim that no failure
aborts the entire render pass. -/
theorem c1_isolation_bug :
    (script providerNoPrimary 0 0 0 sel0).aborted =
      some "TypeError: NoneType object is not subscriptable" ∧
    (script providerNoPrimary 0 0 0 sel0).items.countP (fun it => it.isWatch) = 0 ∧
    (script providerNoPrimary 0 0 0 sel0).items.countP (fun it => it.isCompare) = 0 ∧
    Item.aboutNote ∉ (script providerNoPrimary 0 0 0 sel0).items ∧
    (script providerNoCompare 0 0 0 sel0).aborted = none ∧
    (script providerNoCompare 0 0 0 sel0).items.countP (fun it => it.isHeadline) = 1 ∧
    (script providerNoCompare 0 0 0 sel0).items.countP (fun it => it.isCompare) = 0 ∧
    (script providerNoCompare 0 0 0 sel0).items.countP (fun it => it.isWatch) = 12 ∧
    Item.aboutNote ∈ (script providerNoCompare 0 0 0 sel0).items := by
  refine ⟨by decide, by decide, by decide, by decide, by decide, by decide, by decide,
    by decide, by decide⟩

end StockApp
